import Mathlib

/-!
Shallow embedding of the delay-build webhook scheduler (src/src/index.ts):
a Cloudflare Durable Object that delays a webhook trigger, retries failures
with a fixed backoff table, and a request gateway validating inbound
requests.  JavaScript strings are modelled as lists of characters,
timestamps (epoch milliseconds from Date.now) as natural numbers, and
optional record fields as Option.  The durable storage cell and the
single wake-timer slot are modelled explicitly; the platform's URL parser
and ISO date formatter are parameters, per their interface.
-/

namespace DelayBuild

/-- JavaScript strings, modelled as lists of characters. -/
abbrev JSStr := List Char

/-- The source union type `BuildStatus = "success" | "error"` (index.ts line 13). -/
inductive BuildStatus
  | success
  | error
deriving DecidableEq, Repr

/-- The persisted `SchedulerState` record (index.ts lines 15-24).  Every
field is optional in the source; timestamps are epoch milliseconds. -/
structure SchedulerState where
  lastWebhookAt : Option Nat := none
  scheduledFor : Option Nat := none
  lastBuildAt : Option Nat := none
  lastBuildStatus : Option BuildStatus := none
  lastError : Option JSStr := none
  retryCount : Option Nat := none
  delayMs : Option Nat := none
  webhookUrl : Option JSStr := none
deriving DecidableEq, Repr

/-- The `QueueResponse` shape returned by `queueBuild` (index.ts lines 26-30). -/
structure QueueResponse where
  lastWebhookAt : Nat
  scheduledFor : Nat
  delayMs : Nat
deriving DecidableEq, Repr

/-- Storage read `getState` (index.ts lines 148-154): the stored record, defaulting
to `{ retryCount: 0 }` when nothing is stored yet. -/
def getState (store : Option SchedulerState) : SchedulerState :=
  store.getD { retryCount := some 0 }

/-- JavaScript truthiness test for an optional number: `undefined` and `0`
are falsy. -/
def jsFalsyNum (v : Option Nat) : Bool :=
  match v with
  | none => true
  | some n => n == 0

/-- JavaScript truthiness test for an optional string: `undefined` and the
empty string are falsy. -/
def jsFalsyStr (v : Option JSStr) : Bool :=
  match v with
  | none => true
  | some s => s.isEmpty

/-- The final truncation step of `truncateError` (index.ts line 277):
`message.length > 500 ? message.slice(0, 497) + "..." : message`. -/
def truncateMessage (message : JSStr) : JSStr :=
  if message.length > 500 then message.take 497 ++ ['.', '.', '.'] else message

/-- A JavaScript value as far as `truncateError` inspects it: an `Error`
carrying its `message`, a string, or any other value together with what
`JSON.stringify` returns for it — `none` when `JSON.stringify` yields
`undefined` (as it does for `undefined`, functions and symbols). -/
inductive JSValue
  | error (message : JSStr)
  | str (s : JSStr)
  | other (stringified : Option JSStr)
deriving DecidableEq, Repr

/-- Function `truncateError` (index.ts lines 269-278).  When the selected `message`
is `undefined` (non-Error, non-string value that `JSON.stringify` maps to
`undefined`), the source evaluates `undefined.length` and throws a
TypeError, modelled as `none`. -/
def truncateError (error : JSValue) : Option JSStr :=
  match error with
  | .error message => some (truncateMessage message)
  | .str s => some (truncateMessage s)
  | .other (some s) => some (truncateMessage s)
  | .other none => none

/-- Backoff lookup `getRetryDelayMs` (index.ts lines 160-163):
`retryWindowsMs[Math.min(retryCount - 1, retryWindowsMs.length - 1)]`.
The only call site passes `retryCount >= 1`.  (At the unreachable input 0,
JavaScript would index at -1 and yield `undefined`; natural-number
subtraction indexes at 0 instead.  The in-range index makes the `getD`
default unreachable as well.) -/
def getRetryDelayMs (retryCount : Nat) : Nat :=
  let retryWindowsMs := [60000, 120000, 300000]
  retryWindowsMs.getD (min (retryCount - 1) (retryWindowsMs.length - 1)) 0

/-- Operation `queueBuild(webhookUrl, delaySeconds)` (index.ts lines 44-67).
Returns the stored record after `setState`, the alarm armed by `setAlarm`,
and the `QueueResponse`.  `Math.round(delaySeconds * 1000)` is the
identity on the integer inputs the gateway admits. -/
def queueBuild (store : Option SchedulerState) (now : Nat) (webhookUrl : JSStr)
    (delaySeconds : Nat) : Option SchedulerState × Option Nat × QueueResponse :=
  let state := getState store
  let delayMs := delaySeconds * 1000
  let scheduledFor := now + delayMs
  (some { state with
      lastWebhookAt := some now
      scheduledFor := some scheduledFor
      retryCount := some 0
      delayMs := some delayMs
      webhookUrl := some webhookUrl },
   some scheduledFor,
   { lastWebhookAt := now, scheduledFor := scheduledFor, delayMs := delayMs })

/-- Outcome of the `fetch(webhookUrl, { method: "POST" })` trigger call in
`alarm`: a response with `response.ok` true, a response with a non-success
status (the source then throws `Error("Build webhook responded with HTTP "
+ status)`), or a transport failure (per the fetch interface contract the
promise rejects with an `Error`, carrying some message). -/
inductive FetchResult
  | success
  | httpError (status : Nat)
  | netError (message : JSStr)
deriving DecidableEq, Repr

/-- The message of the `Error` reaching the `catch` block of `alarm` for a
given trigger-call outcome; `none` when the call succeeded. -/
def failureMessage (fr : FetchResult) : Option JSStr :=
  match fr with
  | .success => none
  | .httpError status =>
      some ("Build webhook responded with HTTP ".toList ++ (toString status).toList)
  | .netError message => some message

/-- Result of one `alarm()` invocation: the stored record afterwards, the
wake timer armed afterwards (the firing consumed the previous one, so it
is `none` unless `setAlarm` ran), and whether the trigger call and
`setState` were performed. -/
structure AlarmResult where
  record : Option SchedulerState
  armed : Option Nat
  didFetch : Bool
  didPersist : Bool
deriving DecidableEq, Repr

/-- Timer callback `alarm()` (index.ts lines 84-146), with the current time and the
trigger-call outcome passed as oracles.  Branches in source order: the
`!scheduledFor` stale-fire guard, the `!webhookUrl` configuration-error
branch (persists a failure, arms nothing), the success branch of the
`try`, and the `catch` branch (persists the failure and re-arms). -/
def alarmStep (store : Option SchedulerState) (now : Nat) (fr : FetchResult) :
    AlarmResult :=
  let state := getState store
  if jsFalsyNum state.scheduledFor then
    { record := store, armed := none, didFetch := false, didPersist := false }
  else if jsFalsyStr state.webhookUrl then
    { record := some { state with
        lastBuildAt := some now
        lastBuildStatus := some .error
        lastError := some "No webhook URL available for execution.".toList
        retryCount := some (state.retryCount.getD 0 + 1) }
      armed := none, didFetch := false, didPersist := true }
  else
    match failureMessage fr with
    | none =>
        { record := some { state with
            lastBuildAt := some now
            lastBuildStatus := some .success
            lastError := none
            retryCount := some 0
            scheduledFor := none }
          armed := none, didFetch := true, didPersist := true }
    | some msg =>
        let retryCount := state.retryCount.getD 0 + 1
        let retryDelayMs := getRetryDelayMs retryCount
        let nextAlarm := now + retryDelayMs
        { record := some { state with
            lastBuildAt := some now
            lastBuildStatus := some .error
            lastError := some (truncateMessage msg)
            retryCount := some retryCount
            scheduledFor := some nextAlarm }
          armed := some nextAlarm, didFetch := true, didPersist := true }

/-- The `StatusResponse` shape (index.ts lines 32-41): timestamps rendered as
ISO strings or absent. -/
structure StatusResponse where
  lastWebhookAt : Option String
  scheduledFor : Option String
  lastBuildAt : Option String
  lastBuildStatus : Option BuildStatus
  lastError : Option JSStr
  retryCount : Nat
  delayMs : Option Nat
  webhookUrl : Option JSStr
deriving DecidableEq, Repr

/-- Helper `toIso` (index.ts lines 261-267): `undefined` on a falsy input
(`undefined` or `0`), otherwise `new Date(value).toISOString()`.  The
platform's ISO-8601 formatter is the parameter `render`. -/
def toIso (render : Nat → String) (value : Option Nat) : Option String :=
  match value with
  | none => none
  | some v => if v = 0 then none else some (render v)

/-- Operation `getStatus` (index.ts lines 69-82): pure projection of the stored
record, `retryCount` defaulted to 0. -/
def getStatus (render : Nat → String) (store : Option SchedulerState) :
    StatusResponse :=
  let state := getState store
  { lastWebhookAt := toIso render state.lastWebhookAt
    scheduledFor := toIso render state.scheduledFor
    lastBuildAt := toIso render state.lastBuildAt
    lastBuildStatus := state.lastBuildStatus
    lastError := state.lastError
    retryCount := state.retryCount.getD 0
    delayMs := state.delayMs
    webhookUrl := state.webhookUrl }

/-! ### The request gateway (the default-export `fetch` handler) -/

/-- The view of a parsed URL the handler uses: its `protocol` and the
normalized string `toString()` returns (`href`). -/
structure URLRec where
  protocol : String
  href : String
deriving DecidableEq, Repr

/-- An inbound request, projected to the parts the handler reads: method,
pathname, the three headers, and the `?secret=` query parameter.  A `none`
header models `headers.get` returning `null`. -/
structure GatewayRequest where
  method : String
  pathname : String
  xWebhookUrl : Option String
  xDelaySeconds : Option String
  xWebhookSecret : Option String
  querySecret : Option String
deriving DecidableEq, Repr

/-- What the handler produced: the HTTP status of the response and, when
the state machine was invoked, the `(webhookUrl.toString(), delaySeconds)`
arguments passed to `queueBuild` (`none` means no state-machine call, so
no state change). -/
structure FetchOutcome where
  status : Nat
  queuedCall : Option (String × Int)
deriving DecidableEq, Repr

/-- JavaScript truthiness for an optional Lean-level string. -/
def jsFalsyOptStr (v : Option String) : Bool :=
  match v with
  | none => true
  | some s => s.isEmpty

/-- The whitespace characters `parseInt` skips (the common ASCII ones). -/
def jsWhitespace (c : Char) : Bool :=
  c = ' ' || c = '\t' || c = '\n' || c = '\r' || c = '\x0b' || c = '\x0c'

/-- Parsing as in `Number.parseInt(s, 10)`, modelled from its (platform) definition:
skip leading whitespace, an optional sign, then read the longest digit
run; `none` models `NaN` (no digits).  Digits beyond the run are ignored,
so `"2.5"` parses to `2`.  (Overflow of huge digit runs to `Infinity` is
not modelled; it matters only for numerals of 300+ digits.) -/
def parseIntJS (s : String) : Option Int :=
  let cs := s.toList.dropWhile jsWhitespace
  let signed : Int × List Char :=
    match cs with
    | '-' :: rest => (-1, rest)
    | '+' :: rest => (1, rest)
    | rest => (1, rest)
  let digits := signed.2.takeWhile Char.isDigit
  if digits.isEmpty then none
  else some (signed.1 * (digits.foldl (fun a c => a * 10 + (c.toNat - 48)) 0 : Nat))

/-- The validation pipeline of the POST branch of the handler (index.ts
lines 214-257), reached after method routing and the secret check:
`x-webhook-url` presence, `new URL` parse (the platform parser is the
parameter `parseURL`), protocol allow-list, `x-delay-seconds` presence,
`parseInt`, positivity; then the `queueBuild` call and the 202 response. -/
def gatewayQueuePath (parseURL : String → Option URLRec) (req : GatewayRequest) :
    FetchOutcome :=
  match req.xWebhookUrl with
  | none => { status := 400, queuedCall := none }
  | some h =>
    if h.isEmpty then { status := 400, queuedCall := none }
    else
      match parseURL h with
      | none => { status := 400, queuedCall := none }
      | some u =>
        if !(u.protocol == "http:" || u.protocol == "https:") then
          { status := 400, queuedCall := none }
        else
          match req.xDelaySeconds with
          | none => { status := 400, queuedCall := none }
          | some ds =>
            if ds.isEmpty then { status := 400, queuedCall := none }
            else
              match parseIntJS ds with
              | none => { status := 400, queuedCall := none }
              | some d =>
                if d ≤ 0 then { status := 400, queuedCall := none }
                else { status := 202, queuedCall := some (u.href, d) }

/-- The default-export `fetch` handler (index.ts lines 166-259): OPTIONS
pre-flight, GET `/status`, 404 for other non-POST methods, the optional
shared-secret check (`env.WEBHOOK_SECRET` falsy disables it; the provided
secret is the header, falling back to the query parameter only when the
header is absent), then the POST validation pipeline. -/
def gatewayFetch (parseURL : String → Option URLRec) (envSecret : Option String)
    (req : GatewayRequest) : FetchOutcome :=
  if req.method == "OPTIONS" then { status := 204, queuedCall := none }
  else if req.method == "GET" && req.pathname == "/status" then
    { status := 200, queuedCall := none }
  else if req.method != "POST" then { status := 404, queuedCall := none }
  else
    match envSecret with
    | some secret =>
      if !secret.isEmpty then
        if (req.xWebhookSecret <|> req.querySecret) ≠ some secret then
          { status := 401, queuedCall := none }
        else gatewayQueuePath parseURL req
      else gatewayQueuePath parseURL req
    | none => gatewayQueuePath parseURL req

/-- A concrete stand-in for the platform URL parser, enough for witnesses:
accepts strings that already carry an explicit `http://` or `https://`
scheme and are in normalized form, so `toString()` returns them verbatim. -/
def parseURLDemo (s : String) : Option URLRec :=
  if "https://".toList.isPrefixOf s.toList then some { protocol := "https:", href := s }
  else if "http://".toList.isPrefixOf s.toList then some { protocol := "http:", href := s }
  else none

/-- The secret check of the handler passes (no secret configured, the
configured secret is the falsy empty string, or the provided secret
matches). -/
def secretPasses (envSecret : Option String) (req : GatewayRequest) : Prop :=
  ∀ s, envSecret = some s → ¬s.isEmpty →
    (req.xWebhookSecret <|> req.querySecret) = some s

/-- The `scheduledFor`/timer consistency invariant of the spec: a stored,
non-zero `scheduledFor` is matched by the armed wake timer. -/
def timerInv (record : Option SchedulerState) (armed : Option Nat) : Prop :=
  ∀ v, (getState record).scheduledFor = some v → v ≠ 0 → armed = some v

/-! ### Concrete example values used by witnesses and counterexamples -/

/-- A stored record with a pending schedule (`scheduledFor = 1000`) but no
`webhookUrl`, as left by a hypothetical partial write: the configuration
available at fire time is broken. -/
def C1exStore : SchedulerState :=
  { lastWebhookAt := some 900
    scheduledFor := some 1000
    lastBuildAt := none
    lastBuildStatus := none
    lastError := none
    retryCount := some 0
    delayMs := some 100
    webhookUrl := none }

/-- A stored record mid-failure-streak with a pending schedule and a
configured webhook URL. -/
def exStore : SchedulerState :=
  { lastWebhookAt := some 900
    scheduledFor := some 60000
    lastBuildAt := none
    lastBuildStatus := some .error
    lastError := some ['x']
    retryCount := some 2
    delayMs := some 59100
    webhookUrl := some "https://example.com/build".toList }

/-- A well-formed schedule request with no secret configured. -/
def reqOk : GatewayRequest :=
  { method := "POST", pathname := "/", xWebhookUrl := some "http://example.com/",
    xDelaySeconds := some "60", xWebhookSecret := none, querySecret := none }

/-- A stored record whose timestamp fields all hold the value 0. -/
def zeroStore : SchedulerState :=
  { lastWebhookAt := some 0
    scheduledFor := some 0
    lastBuildAt := some 0
    lastBuildStatus := none
    lastError := none
    retryCount := some 0
    delayMs := none
    webhookUrl := none }

/-! ### Helper lemmas -/

/-- Reading back a just-written record returns it unchanged. -/
theorem getState_some (s : SchedulerState) : getState (some s) = s := rfl

/-- The truncation step never yields more than 500 characters. -/
theorem truncateMessage_length_le (m : JSStr) : (truncateMessage m).length ≤ 500 := by
  by_cases h : 500 < m.length
  · simp [truncateMessage, h, List.length_take]
  · simp [truncateMessage, h]
    omega

/-- On an authorized POST request, the handler runs the validation
pipeline of the queue path. -/
theorem gatewayFetch_post (parseURL : String → Option URLRec)
    (envSecret : Option String) (req : GatewayRequest) (hm : req.method = "POST")
    (hs : secretPasses envSecret req) :
    gatewayFetch parseURL envSecret req = gatewayQueuePath parseURL req := by
  cases envSecret with
  | none => simp [gatewayFetch, hm]
  | some s =>
    by_cases he : s.isEmpty
    · simp [gatewayFetch, hm, he]
    · have hp := hs s rfl (by simpa using he)
      simp [gatewayFetch, hm, he, hp]

/-! ### Claims -/

/-- Claim C1, counterexample: the claim asserts that after the
configuration-error branch of `onAlarm` the persisted record does not
have `scheduledFor` set without a live timer.  Running `alarm` on a
record with `scheduledFor = 1000` and no `webhookUrl` persists a record
that still has `scheduledFor = 1000`, while no timer is armed (the fire
consumed the old one and `setAlarm` is not called in this branch). -/
theorem C1_counterexample :
    (alarmStep (some C1exStore) 5000 .success).didPersist = true
    ∧ (getState (alarmStep (some C1exStore) 5000 .success).record).scheduledFor = some 1000
    ∧ (alarmStep (some C1exStore) 5000 .success).armed = none :=
  ⟨rfl, rfl, rfl⟩

/-- Claim C1 (amended): `queueExecution` and the stale, success and
failure paths of `onAlarm` preserve the invariant that a stored, truthy
`scheduledFor` is matched by the armed wake timer; the configuration-error
branch of `onAlarm` (no target URL at fire time) violates it: it persists
the record with `scheduledFor` unchanged — hence still set — while
arming no timer. -/
theorem C1_amended :
    (∀ store now url ds,
        timerInv (queueBuild store now url ds).1 (queueBuild store now url ds).2.1)
  ∧ (∀ store now fr, jsFalsyStr (getState store).webhookUrl = false →
        timerInv (alarmStep store now fr).record (alarmStep store now fr).armed)
  ∧ (∀ store now fr, jsFalsyNum (getState store).scheduledFor = false →
        jsFalsyStr (getState store).webhookUrl = true →
        (alarmStep store now fr).armed = none
        ∧ (getState (alarmStep store now fr).record).scheduledFor =
            (getState store).scheduledFor
        ∧ (alarmStep store now fr).didPersist = true) := by
  refine ⟨?_, ?_, ?_⟩
  · intro store now url ds v hv hne
    simp [queueBuild, getState_some] at hv ⊢
    omega
  · intro store now fr h2 v hv hne
    cases h1 : jsFalsyNum (getState store).scheduledFor with
    | true =>
      simp [alarmStep, h1] at hv ⊢
      rw [hv] at h1
      simp [jsFalsyNum] at h1
      exact absurd h1 hne
    | false =>
      cases hf : failureMessage fr with
      | none => simp [alarmStep, h1, h2, hf, getState_some] at hv
      | some msg =>
        simp [alarmStep, h1, h2, hf, getState_some] at hv ⊢
        omega
  · intro store now fr h1 h2
    refine ⟨?_, ?_, ?_⟩ <;> simp [alarmStep, h1, h2, getState_some]

/-- Claim C1, witness: the amended configuration-error conjunct at the
concrete broken record. -/
theorem C1_amended_witness :
    (alarmStep (some C1exStore) 5000 .success).armed = none
    ∧ (getState (alarmStep (some C1exStore) 5000 .success).record).scheduledFor =
        (getState (some C1exStore)).scheduledFor
    ∧ (alarmStep (some C1exStore) 5000 .success).didPersist = true :=
  C1_amended.2.2 (some C1exStore) 5000 .success rfl rfl

/-- Claim C2: for every post-increment `retryCount >= 1` the backoff table
yields 60000 ms at 1, 120000 ms at 2 and 300000 ms at 3 and beyond
(clamped to the last entry), and every execution failure in `onAlarm`
re-arms a timer at `now` plus that delay — there is no retry cap. -/
theorem C2_retry_backoff :
    (∀ rc, 1 ≤ rc → getRetryDelayMs rc =
        if rc = 1 then 60000 else if rc = 2 then 120000 else 300000)
  ∧ (∀ store now fr msg, failureMessage fr = some msg →
        jsFalsyNum (getState store).scheduledFor = false →
        jsFalsyStr (getState store).webhookUrl = false →
        (alarmStep store now fr).armed =
          some (now + getRetryDelayMs ((getState store).retryCount.getD 0 + 1))) := by
  constructor
  · intro rc h
    match rc, h with
    | 1, _ => rfl
    | 2, _ => rfl
    | (n+3), _ => simp [getRetryDelayMs]
  · intro store now fr msg hf h1 h2
    simp [alarmStep, h1, h2, hf]

/-- Claim C2, witness: the fifth consecutive failure retries after the
clamped 300000 ms. -/
theorem C2_retry_backoff_witness : getRetryDelayMs 5 = 300000 :=
  (C2_retry_backoff.1 5 (by decide)).trans (by decide)

/-- Claim C3: for every positive integer `delaySeconds`, `queueBuild` sets
`scheduledFor = now + delaySeconds * 1000` exactly, overwrites
`lastWebhookAt`, `delayMs` and `webhookUrl`, resets `retryCount` to 0
whatever it was before, arms the timer for `scheduledFor`, and returns
exactly the accepted `lastWebhookAt`, `scheduledFor` and `delayMs`. -/
theorem C3_queueExecution (store : Option SchedulerState) (now : Nat)
    (url : JSStr) (ds : Nat) (h : 0 < ds) :
    queueBuild store now url ds =
      (some { getState store with
                lastWebhookAt := some now
                scheduledFor := some (now + ds * 1000)
                retryCount := some 0
                delayMs := some (ds * 1000)
                webhookUrl := some url },
       some (now + ds * 1000),
       { lastWebhookAt := now, scheduledFor := now + ds * 1000, delayMs := ds * 1000 }) := rfl

/-- Claim C3, witness: a fresh store, delay of 2 s requested at time 7. -/
theorem C3_queueExecution_witness :
    queueBuild none 7 "https://example.com/".toList 2 =
      (some { lastWebhookAt := some 7
              scheduledFor := some 2007
              lastBuildAt := none
              lastBuildStatus := none
              lastError := none
              retryCount := some 0
              delayMs := some 2000
              webhookUrl := some "https://example.com/".toList },
       some 2007,
       { lastWebhookAt := 7, scheduledFor := 2007, delayMs := 2000 }) :=
  C3_queueExecution none 7 "https://example.com/".toList 2 (by decide)

/-- Claim C4: when the trigger call returns a success status, the
persisted record has `scheduledFor` unset, `retryCount = 0`,
`lastBuildStatus = success`, `lastError` unset and `lastBuildAt = now`. -/
theorem C4_alarm_success (store : Option SchedulerState) (now : Nat)
    (h1 : jsFalsyNum (getState store).scheduledFor = false)
    (h2 : jsFalsyStr (getState store).webhookUrl = false) :
    alarmStep store now .success =
      { record := some { getState store with
            lastBuildAt := some now
            lastBuildStatus := some .success
            lastError := none
            retryCount := some 0
            scheduledFor := none }
        armed := none
        didFetch := true
        didPersist := true } := by
  simp [alarmStep, h1, h2, failureMessage]

/-- Claim C4, witness: a successful fire on a record mid-failure-streak. -/
theorem C4_alarm_success_witness :
    alarmStep (some exStore) 60000 .success =
      { record := some { exStore with
            lastBuildAt := some 60000
            lastBuildStatus := some .success
            lastError := none
            retryCount := some 0
            scheduledFor := none }
        armed := none
        didFetch := true
        didPersist := true } :=
  C4_alarm_success (some exStore) 60000 (by decide) (by decide)

/-- Claim C5: when the trigger call fails (non-success status or transport
failure), the persisted record has `retryCount` incremented by 1,
`scheduledFor = now +` the backoff delay for the new count,
`lastBuildAt = now`, `lastBuildStatus = error` and `lastError` the
truncated failure description, and the timer is re-armed for the new
`scheduledFor`. -/
theorem C5_alarm_failure (store : Option SchedulerState) (now : Nat)
    (fr : FetchResult) (msg : JSStr) (hf : failureMessage fr = some msg)
    (h1 : jsFalsyNum (getState store).scheduledFor = false)
    (h2 : jsFalsyStr (getState store).webhookUrl = false) :
    alarmStep store now fr =
      { record := some { getState store with
            lastBuildAt := some now
            lastBuildStatus := some .error
            lastError := some (truncateMessage msg)
            retryCount := some ((getState store).retryCount.getD 0 + 1)
            scheduledFor := some (now + getRetryDelayMs ((getState store).retryCount.getD 0 + 1)) }
        armed := some (now + getRetryDelayMs ((getState store).retryCount.getD 0 + 1))
        didFetch := true
        didPersist := true } := by
  simp [alarmStep, h1, h2, hf]

/-- Claim C5, witness: an HTTP 500 on the third attempt schedules the
retry 300000 ms later. -/
theorem C5_alarm_failure_witness :
    alarmStep (some exStore) 60000 (.httpError 500) =
      { record := some { exStore with
            lastBuildAt := some 60000
            lastBuildStatus := some .error
            lastError := some (truncateMessage
              ("Build webhook responded with HTTP ".toList ++ (toString 500).toList))
            retryCount := some 3
            scheduledFor := some 360000 }
        armed := some 360000
        didFetch := true
        didPersist := true } :=
  C5_alarm_failure (some exStore) 60000 (.httpError 500) _ rfl (by decide) (by decide)

/-- Claim C6: a message longer than 500 characters is truncated to exactly
500 characters ending in the `...` marker; a message of at most 500
characters is stored unchanged; hence the result never exceeds 500
characters. -/
theorem C6_truncation (m : JSStr) :
    (500 < m.length →
        (truncateMessage m).length = 500 ∧ ['.', '.', '.'] <:+ truncateMessage m)
  ∧ (m.length ≤ 500 → truncateMessage m = m)
  ∧ (truncateMessage m).length ≤ 500 := by
  refine ⟨?_, ?_, ?_⟩
  · intro h
    refine ⟨?_, ?_⟩
    · simp [truncateMessage, h, List.length_take]
      omega
    · simp [truncateMessage, h]
  · intro h
    simp [truncateMessage, Nat.not_lt.mpr h]
  · exact truncateMessage_length_le m

/-- Claim C6, witness: a 501-character message truncates to length 500
with the trailing marker. -/
theorem C6_truncation_witness :
    (truncateMessage (List.replicate 501 'a')).length = 500
    ∧ ['.', '.', '.'] <:+ truncateMessage (List.replicate 501 'a') :=
  (C6_truncation (List.replicate 501 'a')).1 (by rw [List.length_replicate]; omega)

/-- Claim C7: a fire with `scheduledFor` unset is a stale fire — `alarm`
performs no trigger call, persists nothing, and the stored record is
exactly what it was. -/
theorem C7_stale_alarm_noop (store : Option SchedulerState) (now : Nat)
    (fr : FetchResult) (h : (getState store).scheduledFor = none) :
    alarmStep store now fr =
      { record := store, armed := none, didFetch := false, didPersist := false } := by
  simp [alarmStep, h, jsFalsyNum]

/-- Claim C7, witness: a fire on an empty store is a no-op. -/
theorem C7_stale_alarm_noop_witness :
    alarmStep none 5 .success =
      { record := none, armed := none, didFetch := false, didPersist := false } :=
  C7_stale_alarm_noop none 5 .success rfl

/-- Claim C8, counterexample: the header value `"2.5"` is not a positive
integer, yet the request is accepted with a 202 and `queueBuild` is
invoked with the truncated delay 2 — `parseInt` keeps the leading digit
run and ignores the rest, so the claimed 400 rejection does not happen. -/
theorem C8_counterexample :
    gatewayFetch parseURLDemo none
      { method := "POST", pathname := "/", xWebhookUrl := some "https://example.com/",
        xDelaySeconds := some "2.5", xWebhookSecret := none, querySecret := none } =
      { status := 202, queuedCall := some ("https://example.com/", 2) } := by decide

/-- Claim C8 (amended): on an authorized POST request, a missing, empty,
unparsable or non-http(s) target URL is rejected with 400, and an
`x-delay-seconds` that is missing, empty, has no leading integer
(`parseInt` yields NaN) or whose leading integer is non-positive is
rejected with 400, in each case without invoking the state machine; when
the URL is well-formed and the leading integer of `x-delay-seconds` is
positive, the request yields 202 and `queueBuild` is invoked with the
normalized URL and that integer — which, as for `"2.5"`, need not mean
the header value itself was a positive integer numeral. -/
theorem C8_amended (parseURL : String → Option URLRec) (envSecret : Option String)
    (req : GatewayRequest) (hm : req.method = "POST")
    (hs : secretPasses envSecret req) :
    (jsFalsyOptStr req.xWebhookUrl = true →
        gatewayFetch parseURL envSecret req = { status := 400, queuedCall := none })
  ∧ (∀ h, req.xWebhookUrl = some h → h.isEmpty = false → parseURL h = none →
        gatewayFetch parseURL envSecret req = { status := 400, queuedCall := none })
  ∧ (∀ h u, req.xWebhookUrl = some h → h.isEmpty = false → parseURL h = some u →
        u.protocol ≠ "http:" → u.protocol ≠ "https:" →
        gatewayFetch parseURL envSecret req = { status := 400, queuedCall := none })
  ∧ (∀ h u, req.xWebhookUrl = some h → h.isEmpty = false → parseURL h = some u →
        (u.protocol = "http:" ∨ u.protocol = "https:") →
        jsFalsyOptStr req.xDelaySeconds = true →
        gatewayFetch parseURL envSecret req = { status := 400, queuedCall := none })
  ∧ (∀ h u ds, req.xWebhookUrl = some h → h.isEmpty = false → parseURL h = some u →
        (u.protocol = "http:" ∨ u.protocol = "https:") →
        req.xDelaySeconds = some ds → ds.isEmpty = false → parseIntJS ds = none →
        gatewayFetch parseURL envSecret req = { status := 400, queuedCall := none })
  ∧ (∀ h u ds d, req.xWebhookUrl = some h → h.isEmpty = false → parseURL h = some u →
        (u.protocol = "http:" ∨ u.protocol = "https:") →
        req.xDelaySeconds = some ds → ds.isEmpty = false → parseIntJS ds = some d →
        d ≤ 0 →
        gatewayFetch parseURL envSecret req = { status := 400, queuedCall := none })
  ∧ (∀ h u ds d, req.xWebhookUrl = some h → h.isEmpty = false → parseURL h = some u →
        (u.protocol = "http:" ∨ u.protocol = "https:") →
        req.xDelaySeconds = some ds → ds.isEmpty = false → parseIntJS ds = some d →
        0 < d →
        gatewayFetch parseURL envSecret req =
          { status := 202, queuedCall := some (u.href, d) }) := by
  rw [gatewayFetch_post parseURL envSecret req hm hs]
  refine ⟨?_, ?_, ?_, ?_, ?_, ?_, ?_⟩
  · intro hfalsy
    cases hu : req.xWebhookUrl with
    | none => simp [gatewayQueuePath, hu]
    | some h =>
      rw [hu] at hfalsy
      simp [jsFalsyOptStr] at hfalsy
      simp [gatewayQueuePath, hu, hfalsy]
  · intro h hu hne hp
    simp [gatewayQueuePath, hu, hne, hp]
  · intro h u hu hne hp hq1 hq2
    simp [gatewayQueuePath, hu, hne, hp, hq1, hq2]
  · intro h u hu hne hp hq hfalsy
    rcases hq with hq | hq <;>
    · cases hd : req.xDelaySeconds with
      | none => simp [gatewayQueuePath, hu, hne, hp, hq, hd]
      | some ds =>
        rw [hd] at hfalsy
        simp [jsFalsyOptStr] at hfalsy
        simp [gatewayQueuePath, hu, hne, hp, hq, hd, hfalsy]
  · intro h u ds hu hne hp hq hd hdne hpi
    rcases hq with hq | hq <;>
      simp [gatewayQueuePath, hu, hne, hp, hq, hd, hdne, hpi]
  · intro h u ds d hu hne hp hq hd hdne hpi hd0
    rcases hq with hq | hq <;>
      simp [gatewayQueuePath, hu, hne, hp, hq, hd, hdne, hpi, hd0]
  · intro h u ds d hu hne hp hq hd hdne hpi hd0
    rcases hq with hq | hq <;>
      simp [gatewayQueuePath, hu, hne, hp, hq, hd, hdne, hpi, Int.not_le.mpr hd0]

/-- Claim C8, witness: the acceptance conjunct at a well-formed request. -/
theorem C8_amended_witness :
    gatewayFetch parseURLDemo none reqOk =
      { status := 202, queuedCall := some ("http://example.com/", 60) } :=
  (C8_amended parseURLDemo none reqOk rfl
      (fun s hs _ => Option.noConfusion hs)).2.2.2.2.2.2
    "http://example.com/" { protocol := "http:", href := "http://example.com/" } "60" 60
    rfl (by decide) (by decide) (Or.inl rfl) rfl (by decide) (by decide) (by decide)

/-- Claim C9: a stored timestamp of exactly 0 behaves as unset — `alarm`
treats `scheduledFor = 0` as a stale fire (no call, no write), `toIso`
renders 0 as absent for any ISO formatter, and `getStatus` renders each
timestamp field stored as 0 as absent. -/
theorem C9_zero_timestamp :
    (∀ store now fr, (getState store).scheduledFor = some 0 →
        alarmStep store now fr =
          { record := store, armed := none, didFetch := false, didPersist := false })
  ∧ (∀ render : Nat → String, toIso render (some 0) = none)
  ∧ (∀ (render : Nat → String) store,
        ((getState store).lastWebhookAt = some 0 →
            (getStatus render store).lastWebhookAt = none)
      ∧ ((getState store).scheduledFor = some 0 →
            (getStatus render store).scheduledFor = none)
      ∧ ((getState store).lastBuildAt = some 0 →
            (getStatus render store).lastBuildAt = none)) := by
  refine ⟨?_, ?_, ?_⟩
  · intro store now fr h
    simp [alarmStep, h, jsFalsyNum]
  · intro render
    rfl
  · intro render store
    refine ⟨?_, ?_, ?_⟩ <;> intro h <;> simp [getStatus, toIso, h]

/-- Claim C9, witness: a record with all timestamps 0 fires as a no-op and
renders with all timestamp fields absent. -/
theorem C9_zero_timestamp_witness :
    alarmStep (some zeroStore) 5 .success =
      { record := some zeroStore, armed := none, didFetch := false, didPersist := false }
    ∧ (getStatus (fun _ => "") (some zeroStore)).lastWebhookAt = none
    ∧ (getStatus (fun _ => "") (some zeroStore)).scheduledFor = none
    ∧ (getStatus (fun _ => "") (some zeroStore)).lastBuildAt = none :=
  ⟨C9_zero_timestamp.1 (some zeroStore) 5 .success rfl,
   (C9_zero_timestamp.2.2 (fun _ => "") (some zeroStore)).1 rfl,
   (C9_zero_timestamp.2.2 (fun _ => "") (some zeroStore)).2.1 rfl,
   (C9_zero_timestamp.2.2 (fun _ => "") (some zeroStore)).2.2 rfl⟩

/-- Claim C10, counterexample: the claim asserts `truncateError` returns a
string for every thrown value, including those `JSON.stringify` maps to
`undefined`; on such a value (e.g. `undefined` itself) the selected
message is `undefined`, `message.length` throws a TypeError, and no
string is returned. -/
theorem C10_counterexample : truncateError (JSValue.other none) = none := rfl

/-- Claim C10 (amended): `truncateError` returns a string of length at
most 500 for every `Error`, every string, and every other value that
`JSON.stringify` maps to a string; it throws (returns no string) exactly
for the values `JSON.stringify` maps to `undefined`. -/
theorem C10_amended :
    (∀ v s, truncateError v = some s → s.length ≤ 500)
  ∧ (∀ v, truncateError v = none ↔ v = JSValue.other none) := by
  constructor
  · intro v s hv
    cases v with
    | error m => simp [truncateError] at hv; subst hv; exact truncateMessage_length_le m
    | str m => simp [truncateError] at hv; subst hv; exact truncateMessage_length_le m
    | other o =>
      cases o with
      | none => simp [truncateError] at hv
      | some m => simp [truncateError] at hv; subst hv; exact truncateMessage_length_le m
  · intro v
    cases v with
    | error m => simp [truncateError]
    | str m => simp [truncateError]
    | other o => cases o <;> simp [truncateError]

/-- Claim C10, witness: a 600-character thrown string is truncated to at
most 500 characters. -/
theorem C10_amended_witness :
    (truncateMessage (List.replicate 600 'x')).length ≤ 500 :=
  C10_amended.1 (JSValue.str (List.replicate 600 'x'))
    (truncateMessage (List.replicate 600 'x')) rfl

end DelayBuild
